import Mathlib

/-!
Shallow embedding of the BTT (Block Translation Table) core from
src/src/btt.c, together with theorems settling the frozen claims about
the natural-language specification of that file.

Machine integers are modelled as Nat; the 32-bit map-entry flag constants
and the 2-bit sequence-number cycle are taken literally from the source.
Namespace I/O (the nsread/nswrite/nsmap/nssync callback set) is modelled
by explicit inputs (the values successive reads return, booleans saying
whether a write succeeds) and by explicit event traces recording which
reads and writes the code performs.
-/

namespace Btt

/-- Bit 31 of a 32-bit map entry: the ERROR flag (BTT_MAP_ENTRY_ERROR;
spec section 6, map entry bit 31 = ERROR). -/
def BTT_MAP_ENTRY_ERROR : Nat := 2 ^ 31

/-- Bit 30 of a 32-bit map entry: the ZERO flag (BTT_MAP_ENTRY_ZERO;
spec section 6, map entry bit 30 = ZERO). -/
def BTT_MAP_ENTRY_ZERO : Nat := 2 ^ 30

/-- Low 30 bits of a map entry: the post-map LBA (BTT_MAP_ENTRY_LBA_MASK). -/
def BTT_MAP_ENTRY_LBA_MASK : Nat := 2 ^ 30 - 1

/-- Lookup table for sequence numbers, btt.c:258. -/
def Nseq : List Nat := [0, 2, 3, 1]

/-- Advance a 2-bit sequence number: the NSEQ macro of btt.c:259,
NSEQ(seq) = Nseq[seq & 3]. -/
def NSEQ (s : Nat) : Nat := Nseq.getD (s &&& 3) 0

/-! ## Flog pair selection during recovery (read_flog_pair, btt.c:378-400) -/

/-- Slot selection of read_flog_pair (btt.c:378-400): given the seq fields of
the two slots of a flog pair, returns none when the arena is marked ERROR
(identical seq numbers, including 0,0), otherwise some (active slot,
next-write slot), translated branch for branch from the if chain. -/
def read_flog_pair_select (s0 s1 : Nat) : Option (Nat × Nat) :=
  if s0 = s1 then none
  else if s0 = 0 then some (1, 0)
  else if s1 = 0 then some (0, 1)
  else if NSEQ s0 = s1 then some (1, 0)
  else some (0, 1)

/-- Successor in the cycle 1 -> 2 -> 3 -> 1 exactly as the spec words it
(spec section 3, sequence numbers); 0 is invalid and never written, so it is
given no successor. -/
def succSpec (s : Nat) : Nat :=
  if s = 1 then 2 else if s = 2 then 3 else if s = 3 then 1 else 0

/-- Slot selection as written in the spec table (spec section 4.2), row by
row from the top: 0,0 error; 0,v slot 1; v,0 slot 0; a,a error;
succ(a) = b slot 1; otherwise slot 0. -/
def read_flog_pair_select_spec (s0 s1 : Nat) : Option (Nat × Nat) :=
  if s0 = 0 ∧ s1 = 0 then none
  else if s0 = 0 then some (1, 0)
  else if s1 = 0 then some (0, 1)
  else if s0 = s1 then none
  else if succSpec s0 = s1 then some (1, 0)
  else some (0, 1)

/-! ## Flog entry recovery (read_flog_pair, btt.c:429-460) -/

/-- On-media flog entry (struct btt_flog, four 32-bit fields). -/
structure BttFlog where
  lba : Nat
  old_map : Nat
  new_map : Nat
  seq : Nat
deriving DecidableEq

/-- Map access event: a namespace read or write of the 4-byte map entry at a
given pre-map index. -/
inductive MapEv where
  | read (idx : Nat)
  | write (idx val : Nat)
deriving DecidableEq

/-- Recovery tail of read_flog_pair (btt.c:429-460) for the already selected
current entry. The map is the arena map as a function from pre-map LBA to the
32-bit entry; rok and wok say whether the nsread and nswrite calls succeed.
Returns (success, map after recovery, trace of map accesses). -/
def read_flog_pair_recover (cur : BttFlog) (map : Nat → Nat) (rok wok : Bool) :
    Bool × (Nat → Nat) × List MapEv :=
  if cur.old_map = cur.new_map then (true, map, [])
  else if rok = false then (false, map, [MapEv.read cur.lba])
  else
    let entry := map cur.lba
    if cur.new_map ≠ entry ∧ cur.old_map = entry then
      if wok = false then
        (false, map, [MapEv.read cur.lba, MapEv.write cur.lba cur.new_map])
      else
        (true, fun i => if i = cur.lba then cur.new_map else map i,
         [MapEv.read cur.lba, MapEv.write cur.lba cur.new_map])
    else (true, map, [MapEv.read cur.lba])

/-! ## flog_update (btt.c:477-522) -/

/-- Run-time flog state for one lane (struct flog_runtime): the current flog
entry, the namespace offsets of the two slots of the pair, and which slot is
written next. -/
structure FlogRuntime where
  flog : BttFlog
  entries0 : Nat
  entries1 : Nat
  next : Nat
deriving DecidableEq

/-- Namespace write event: offset, length in bytes, and the written 32-bit
words. -/
inductive NsWrite where
  | w (off len : Nat) (data : List Nat)
deriving DecidableEq

/-- flog_update (btt.c:477-522): writes the inactive slot of the flog pair in
two namespace writes (the three fields lba, old_map, new_map as 12 bytes,
then the 4-byte seq advanced with NSEQ), and only after both writes succeed
flips next and updates the in-memory runtime entry. w1ok and w2ok say
whether the first and second nswrite succeed. Returns
(success, new runtime state, trace of attempted namespace writes). -/
def flog_update (rt : FlogRuntime) (lba old_map new_map : Nat)
    (w1ok w2ok : Bool) : Bool × FlogRuntime × List NsWrite :=
  let newseq := NSEQ rt.flog.seq
  let off := if rt.next = 0 then rt.entries0 else rt.entries1
  let e1 := NsWrite.w off 12 [lba, old_map, new_map]
  if w1ok = false then (false, rt, [e1])
  else
    let e2 := NsWrite.w (off + 12) 4 [newseq]
    if w2ok = false then (false, rt, [e1, e2])
    else
      (true,
       { rt with next := 1 - rt.next, flog := ⟨lba, old_map, new_map, newseq⟩ },
       [e1, e2])

/-! ## Theorems for claims C3, C4, C5 -/

/-- C3: for every 2-bit pair of sequence numbers read during recovery,
read_flog_pair selects the active slot and the next-write slot exactly per
the spec table: equal sequence numbers (including 0,0) mark the arena ERROR
with no current entry; seq0 = 0 makes slot 1 active with next-write 0;
seq1 = 0 makes slot 0 active with next-write 1; succ(seq0) = seq1 makes
slot 1 active with next-write 0; otherwise slot 0 is active with
next-write 1. -/
theorem read_flog_pair_select_correct :
    ∀ (s0 s1 : Fin 4),
      read_flog_pair_select s0.val s1.val =
        read_flog_pair_select_spec s0.val s1.val := by
  decide

/-- C4: during recovery, for an active flog entry, if old_map = new_map no
map access occurs and the map is unchanged; otherwise the map entry at index
lba is read, and it is rewritten to new_map exactly when it currently equals
old_map (left unchanged when it equals new_map or any third value). -/
theorem read_flog_pair_recover_correct (cur : BttFlog) (map : Nat → Nat) :
    read_flog_pair_recover cur map true true =
      (if cur.old_map = cur.new_map then (true, map, [])
       else if map cur.lba = cur.old_map then
         (true, fun i => if i = cur.lba then cur.new_map else map i,
          [MapEv.read cur.lba, MapEv.write cur.lba cur.new_map])
       else (true, map, [MapEv.read cur.lba])) := by
  unfold read_flog_pair_recover
  by_cases h1 : cur.old_map = cur.new_map
  · simp [h1]
  · by_cases h2 : map cur.lba = cur.old_map
    · have h3 : cur.new_map ≠ map cur.lba ∧ cur.old_map = map cur.lba := by
        constructor
        · intro hc
          exact h1 (by omega)
        · omega
      simp [h1, h3]
    · have h3 : ¬(cur.new_map ≠ map cur.lba ∧ cur.old_map = map cur.lba) := by
        intro hc
        exact h2 hc.2.symm
      simp [h1, h2, h3]

/-- C5: flog_update writes the inactive slot in exactly two namespace
writes, first the 12-byte lba/old_map/new_map fields at the slot offset,
then the 4-byte seq field set to NSEQ of the current seq; on success the
runtime becomes next flipped and flog = (lba, old_map, new_map, new seq);
when the first write fails, or the first succeeds and the second fails, it
returns failure and the runtime state is unchanged. -/
theorem flog_update_correct (rt : FlogRuntime) (lba old_map new_map : Nat)
    (w2 : Bool) :
    flog_update rt lba old_map new_map true true =
      (true,
       { rt with next := 1 - rt.next,
                 flog := ⟨lba, old_map, new_map, NSEQ rt.flog.seq⟩ },
       [NsWrite.w (if rt.next = 0 then rt.entries0 else rt.entries1) 12
          [lba, old_map, new_map],
        NsWrite.w ((if rt.next = 0 then rt.entries0 else rt.entries1) + 12) 4
          [NSEQ rt.flog.seq]])
    ∧ flog_update rt lba old_map new_map false w2 =
        (false, rt,
         [NsWrite.w (if rt.next = 0 then rt.entries0 else rt.entries1) 12
            [lba, old_map, new_map]])
    ∧ flog_update rt lba old_map new_map true false =
        (false, rt,
         [NsWrite.w (if rt.next = 0 then rt.entries0 else rt.entries1) 12
            [lba, old_map, new_map],
          NsWrite.w ((if rt.next = 0 then rt.entries0 else rt.entries1) + 12) 4
            [NSEQ rt.flog.seq]]) := by
  refine ⟨?_, ?_, ?_⟩ <;> simp [flog_update]

/-! ## Read path (btt_read, btt.c:1167-1263)

The namespace is abstracted by the values the successive nsread calls on the
map entry return: entry0 is the result of the first read (btt.c:1195), reads
holds the results of the re-reads inside the retry loop (btt.c:1236), with
none for a failing nsread and a missing list element also standing for a
failing read. dataok says whether the data-block nsread at btt.c:1256
succeeds. Only the rtt cell of the calling lane is tracked. The result is
(return kind, final rtt cell of the lane, number of retry iterations
taken). -/

/-- Return kind of btt_read: success, zero-filled buffer, EIO from a map
entry with the ERROR flag, a failing namespace callback, or EINVAL from the
range check. -/
inductive ReadRes where
  | ok
  | zeros
  | eioFlag
  | nsErr
  | einval
deriving DecidableEq

/-- Retry loop of btt_read (btt.c:1205-1248) together with the tail of the
function (data-block read and rtt reset, btt.c:1254-1262). entry is the map
entry currently held, rtt the current value of the rtt cell of this lane.
Flag checks happen before the publish, exactly as in the source; the publish
sets the rtt cell to entry; a failing re-read resets the rtt cell and
returns; a re-read equal to entry breaks to the data read, after which the
rtt cell is reset whatever the data read returned. -/
def btt_read_loop (entry : Nat) (reads : List (Option Nat)) (dataok : Bool)
    (rtt : Nat) : ReadRes × Nat × Nat :=
  if entry &&& BTT_MAP_ENTRY_ERROR ≠ 0 then (ReadRes.eioFlag, rtt, 0)
  else if entry &&& BTT_MAP_ENTRY_ZERO ≠ 0 then (ReadRes.zeros, rtt, 0)
  else
    match reads with
    | [] => (ReadRes.nsErr, BTT_MAP_ENTRY_ERROR, 0)
    | none :: _ => (ReadRes.nsErr, BTT_MAP_ENTRY_ERROR, 0)
    | some latest :: rest =>
      if entry = latest then
        ((if dataok then ReadRes.ok else ReadRes.nsErr), BTT_MAP_ENTRY_ERROR, 0)
      else
        let r := btt_read_loop latest rest dataok entry
        (r.1, r.2.1, r.2.2 + 1)

/-- btt_read (btt.c:1167-1263): range check, the not-laid-out zero path, the
first map entry read, then the retry loop. rtt0 is the value of the rtt
cell of this lane when the call starts. -/
def btt_read (laidout : Bool) (nlba lba : Nat) (entry0 : Option Nat)
    (reads : List (Option Nat)) (dataok : Bool) (rtt0 : Nat) :
    ReadRes × Nat × Nat :=
  if nlba ≤ lba then (ReadRes.einval, rtt0, 0)
  else if laidout = false then (ReadRes.zeros, rtt0, 0)
  else
    match entry0 with
    | none => (ReadRes.nsErr, rtt0, 0)
    | some e => btt_read_loop e reads dataok rtt0

/-! ## Consistency checker (check_arena and btt_check, btt.c:1533-1674) -/

/-- Input of check_arena for one arena: the on-media map entries (one per
external LBA, in host byte order), the old_map fields of the run-time flog
entries (one per free block), the internal LBA count, and whether the nsmap
call on the map area succeeds. -/
structure ArenaChk where
  mapEntries : List Nat
  flogOld : List Nat
  internal_nlba : Nat
  mapok : Bool
deriving DecidableEq

/-- One step of the duplicate scan of check_arena (btt.c:1583-1589 for map
entries and btt.c:1602-1609 for flog entries, which perform the same mask,
isset test, and setbit): the state is the list of post-map LBAs seen so far
together with the consistent flag. -/
def chkStep (st : List Nat × Bool) (e : Nat) : List Nat × Bool :=
  let entry := e &&& BTT_MAP_ENTRY_LBA_MASK
  if st.1.contains entry then (st.1, false)
  else (entry :: st.1, st.2)

/-- check_arena (btt.c:1533-1626): walk the map and then the run-time flog
old_map fields looking for duplicate post-map LBAs, then require every
internal LBA in [0, internal_nlba) to have been seen. none models the -1
return when the nsmap callback fails (only reachable when there are map
entries to scan, btt.c:1561-1569). -/
def check_arena (a : ArenaChk) : Option Bool :=
  if a.mapok = false ∧ a.mapEntries ≠ [] then none
  else
    let st := (a.mapEntries ++ a.flogOld).foldl chkStep ([], true)
    some (st.2 && (List.range a.internal_nlba).all fun i => st.1.contains i)

/-- btt_check (btt.c:1644-1674), translated with the arena pointer handling
of the source: arenap is initialized to the first arena and never advanced
inside the loop, so every iteration of the narena iterations checks the
first arena. A none result models the -1 error return. -/
def btt_check (laidout : Bool) (arenas : List ArenaChk) : Option Bool :=
  if laidout = false then some true
  else
    match arenas with
    | [] => some true
    | a0 :: _ =>
      (List.range arenas.length).foldl
        (fun acc _ =>
          match acc with
          | none => none
          | some c =>
            match check_arena a0 with
            | none => none
            | some true => some c
            | some false => some false)
        (some true)

/-- btt_check as the spec and the claim describe it: the bitmap consistency
check runs on each arena of the handle in turn; the result is consistent
exactly when every arena passes, inconsistent when some arena fails, error
when a check cannot proceed. -/
def btt_check_spec (laidout : Bool) (arenas : List ArenaChk) : Option Bool :=
  if laidout = false then some true
  else
    arenas.foldl
      (fun acc a =>
        match acc with
        | none => none
        | some c =>
          match check_arena a with
          | none => none
          | some true => some c
          | some false => some false)
      (some true)

/-! ## Theorems for claims C1 and C2 -/

/-- Helper for C1: on every path of the btt_read retry loop, the rtt cell of
the lane ends as the ERROR sentinel, except that the zero-filled and
map-entry-error paths leave it at whatever value it had when the flagged
entry was examined, which is the value from before the loop iteration when
no retry has happened yet. -/
theorem btt_read_loop_rtt_aux (reads : List (Option Nat)) :
    ∀ (entry : Nat) (dataok : Bool) (rtt : Nat),
      (btt_read_loop entry reads dataok rtt).2.1 = BTT_MAP_ENTRY_ERROR
      ∨ (((btt_read_loop entry reads dataok rtt).1 = ReadRes.zeros
            ∨ (btt_read_loop entry reads dataok rtt).1 = ReadRes.eioFlag)
          ∧ ((btt_read_loop entry reads dataok rtt).2.2 = 0 →
             (btt_read_loop entry reads dataok rtt).2.1 = rtt)) := by
  induction reads with
  | nil =>
    intro entry dataok rtt
    by_cases h1 : entry &&& BTT_MAP_ENTRY_ERROR ≠ 0
    · right
      refine ⟨Or.inr ?_, fun _ => ?_⟩ <;> simp [btt_read_loop, h1]
    · by_cases h2 : entry &&& BTT_MAP_ENTRY_ZERO ≠ 0
      · right
        refine ⟨Or.inl ?_, fun _ => ?_⟩ <;> simp [btt_read_loop, h1, h2]
      · left
        simp [btt_read_loop, h1, h2]
  | cons head rest ih =>
    intro entry dataok rtt
    cases head with
    | none =>
      by_cases h1 : entry &&& BTT_MAP_ENTRY_ERROR ≠ 0
      · right
        refine ⟨Or.inr ?_, fun _ => ?_⟩ <;> simp [btt_read_loop, h1]
      · by_cases h2 : entry &&& BTT_MAP_ENTRY_ZERO ≠ 0
        · right
          refine ⟨Or.inl ?_, fun _ => ?_⟩ <;> simp [btt_read_loop, h1, h2]
        · left
          simp [btt_read_loop, h1, h2]
    | some latest =>
      by_cases h1 : entry &&& BTT_MAP_ENTRY_ERROR ≠ 0
      · right
        refine ⟨Or.inr ?_, fun _ => ?_⟩ <;> simp [btt_read_loop, h1]
      · by_cases h2 : entry &&& BTT_MAP_ENTRY_ZERO ≠ 0
        · right
          refine ⟨Or.inl ?_, fun _ => ?_⟩ <;> simp [btt_read_loop, h1, h2]
        · by_cases h3 : entry = latest
          · left
            subst h3
            simp [btt_read_loop, h1, h2]
          · have hunf :
                btt_read_loop entry (some latest :: rest) dataok rtt =
                  ((btt_read_loop latest rest dataok entry).1,
                   (btt_read_loop latest rest dataok entry).2.1,
                   (btt_read_loop latest rest dataok entry).2.2 + 1) := by
              simp [btt_read_loop, h1, h2, h3]
            rw [hunf]
            rcases ih latest dataok entry with hs | ⟨hflag, _⟩
            · left
              exact hs
            · right
              refine ⟨hflag, fun hc => ?_⟩
              simp at hc

/-- C1 (amended): starting from an idle rtt cell (the ERROR sentinel), every
return of btt_read leaves the rtt cell at the sentinel again, except the
zero-filled and map-entry-error returns that happen after at least one retry
iteration; those leave the rtt cell holding the post-map LBA published in
the previous iteration. -/
theorem btt_read_rtt_reset (laidout : Bool) (nlba lba : Nat)
    (entry0 : Option Nat) (reads : List (Option Nat)) (dataok : Bool) :
    (btt_read laidout nlba lba entry0 reads dataok BTT_MAP_ENTRY_ERROR).2.1
        = BTT_MAP_ENTRY_ERROR
    ∨ (((btt_read laidout nlba lba entry0 reads dataok
            BTT_MAP_ENTRY_ERROR).1 = ReadRes.zeros
        ∨ (btt_read laidout nlba lba entry0 reads dataok
            BTT_MAP_ENTRY_ERROR).1 = ReadRes.eioFlag)
       ∧ 1 ≤ (btt_read laidout nlba lba entry0 reads dataok
            BTT_MAP_ENTRY_ERROR).2.2) := by
  by_cases h1 : nlba ≤ lba
  · left
    simp [btt_read, h1]
  · by_cases h2 : laidout = false
    · left
      simp [btt_read, h1, h2]
    · cases entry0 with
      | none =>
        left
        simp [btt_read, h1, h2]
      | some e =>
        have hunf :
            btt_read laidout nlba lba (some e) reads dataok
                BTT_MAP_ENTRY_ERROR =
              btt_read_loop e reads dataok BTT_MAP_ENTRY_ERROR := by
          simp [btt_read, h1, h2]
        rw [hunf]
        rcases btt_read_loop_rtt_aux reads e dataok BTT_MAP_ENTRY_ERROR with
          hs | ⟨hflag, himp⟩
        · left
          exact hs
        · by_cases h4 : (btt_read_loop e reads dataok BTT_MAP_ENTRY_ERROR).2.2 = 0
          · left
            exact himp h4
          · right
            exact ⟨hflag, by omega⟩

/-- C1 (counterexample to the claim as stated): a concurrent map change can
make btt_read observe a ZERO-flagged entry on its retry iteration; the call
then returns zero-filled while the rtt cell of the lane still holds the
post-map LBA 5 published in the first iteration, not the idle ERROR
sentinel. -/
theorem btt_read_rtt_stale :
    btt_read true 1 0 (some 5) [some (BTT_MAP_ENTRY_ZERO + 3)] true
        BTT_MAP_ENTRY_ERROR = (ReadRes.zeros, 5, 1)
    ∧ (5 : Nat) ≠ BTT_MAP_ENTRY_ERROR := by
  refine ⟨?_, ?_⟩ <;> decide

/-- First arena of the C2 input: map entries [0], flog old_map [1],
internal_nlba 2: every internal LBA appears exactly once, so check_arena
accepts it. -/
def arenaA : ArenaChk := ⟨[0], [1], 2, true⟩

/-- Second arena of the C2 input: map entries [0], flog old_map [0]:
post-map LBA 0 is duplicated and internal LBA 1 is unreferenced, so
check_arena rejects it. -/
def arenaB : ArenaChk := ⟨[0], [0], 2, true⟩

/-- C2 (divergence witness): on a laid-out handle with two arenas where the
first is consistent and the second is not, btt_check returns consistent
because the loop in btt.c:1660-1670 never advances the arena pointer and
checks the first arena twice, while check_arena itself rejects the second
arena and the per-arena check described by the spec returns inconsistent. -/
theorem btt_check_misses_arenas :
    btt_check true [arenaA, arenaB] = some true
    ∧ check_arena arenaB = some false
    ∧ btt_check_spec true [arenaA, arenaB] = some false := by
  refine ⟨?_, ?_, ?_⟩ <;> decide

/-! ## Layout reader (read_layout, btt.c:957-1019) and btt_init
(btt.c:1080-1131) -/

/-- Smallest size of a BTT namespace, BTT_MIN_SIZE. Modelled from the spec:
the constant lives in btt_layout.h, which is not under src; the spec uses it
only as the minimum arena size, so the customary 16 MiB value of the layout
header is used, and only its positivity matters to the claims. -/
def BTT_MIN_SIZE : Nat := 16 * 1024 * 1024

/-- Default number of free blocks, BTT_DEFAULT_NFREE. Modelled from the
spec: the constant lives in btt_layout.h, which is not under src; the
customary value 256 is used. btt.c:970 seeds the handle nfree with it
before the arena walk. -/
def BTT_DEFAULT_NFREE : Nat := 256

/-- Largest 32-bit value, the initial value of smallest_nfree
(btt.c:965). -/
def UINT32_MAX : Nat := 2 ^ 32 - 1

/-- Subtraction of unsigned 64-bit values with wraparound, as the C
statement rawsize -= nextoff computes it on uint64_t operands. -/
def sub64 (a b : Nat) : Nat := (a + (2 ^ 64 - b % 2 ^ 64)) % 2 ^ 64

/-- Arena info block as read_layout consumes it: validity stands for the
signature, major-version and checksum checks of read_info succeeding, and
nfree, external_nlba and nextoff are the fields the walk uses. A list of
these blocks abstracts the namespace content: element k is what the nsread
at the k-th arena offset returns, and a missing element models a failing
nsread. -/
structure BttInfo where
  valid : Bool
  nfree : Nat
  external_nlba : Nat
  nextoff : Nat
deriving DecidableEq

/-- Outcome of the arena walk of read_layout: err models the -1 return when
a namespace read fails, noLayout models the branch of btt.c:983-992 where an
invalid info block makes read_layout fall back to write_layout with
write = 0, and ok carries the narena, total_nlba and smallest_nfree
accumulators at loop exit. -/
inductive RLOut where
  | err
  | noLayout
  | ok (narena nlba smallest : Nat)
deriving DecidableEq

/-- Arena walk of read_layout (btt.c:975-1002), one recursive step per
iteration of the while loop; the accumulators are narena, total_nlba and
smallest_nfree. The second component of the result counts the nsread calls
performed. -/
def read_layout_walk (rawsize : Nat) (infos : List BttInfo)
    (narena total smallest : Nat) : RLOut × Nat :=
  if rawsize < BTT_MIN_SIZE then (RLOut.ok narena total smallest, 0)
  else
    match infos with
    | [] => (RLOut.err, 1)
    | i :: rest =>
      if i.valid = false then (RLOut.noLayout, 1)
      else
        let smallest2 := if i.nfree < smallest then i.nfree else smallest
        let total2 := total + i.external_nlba
        if i.nextoff = 0 then (RLOut.ok (narena + 1) total2 smallest2, 1)
        else
          let r := read_layout_walk (sub64 rawsize i.nextoff) rest
                     (narena + 1) total2 smallest2
          (r.1, r.2 + 1)

/-- Final result of read_layout for the handle fields the claims use. -/
inductive RLRes where
  | err
  | noLayout
  | ok (narena nlba nfree : Nat)
deriving DecidableEq

/-- read_layout (btt.c:957-1019): run the arena walk with the accumulators
seeded as in the source (narena 0, total 0, smallest_nfree UINT32_MAX), then
produce the handle fields: on a fully valid walk, narena, nlba = total, and
nfree = smallest_nfree capped by the BTT_DEFAULT_NFREE seed of btt.c:970
(the cap is applied at btt.c:1012-1013). The second component counts nsread
calls. -/
def read_layout (rawsize : Nat) (infos : List BttInfo) : RLRes × Nat :=
  let r := read_layout_walk rawsize infos 0 0 UINT32_MAX
  match r.1 with
  | RLOut.err => (RLRes.err, r.2)
  | RLOut.noLayout => (RLRes.noLayout, r.2)
  | RLOut.ok n t s =>
    (RLRes.ok n t (if s < BTT_DEFAULT_NFREE then s else BTT_DEFAULT_NFREE),
     r.2)

/-- Arenas walked by read_layout as the spec words it: follow nextoff from
arena to arena, stop when nextoff = 0 or the remaining space drops below the
minimum arena size. -/
def specWalked (rawsize : Nat) (infos : List BttInfo) : List BttInfo :=
  match infos with
  | [] => []
  | i :: rest =>
    if rawsize < BTT_MIN_SIZE then []
    else if i.nextoff = 0 then [i]
    else i :: specWalked (sub64 rawsize i.nextoff) rest

/-- Result of btt_init: NULL with errno EINVAL from the size check, NULL
after a failing read_layout, or a handle carrying (nlane, nfree). -/
inductive InitOut where
  | einval
  | fail
  | okp (nlane nfree : Nat)
deriving DecidableEq

/-- Effects btt_init performed before returning: how many handle heap
allocations happened and how many namespace reads were issued. -/
structure InitEff where
  allocs : Nat
  nsreads : Nat
deriving DecidableEq

/-- btt_init (btt.c:1080-1131) for the behavior the claims touch: the
BTT_MIN_SIZE range check that returns NULL with errno EINVAL before the
handle Malloc and before any namespace callback, the read_layout call, and
the nlane computation of btt.c:1123-1127 whose value btt_nlane
(btt.c:1140-1146) returns. On the noLayout path the handle nfree keeps the
BTT_DEFAULT_NFREE seed. The deeper allocations of read_arenas are not
counted in allocs. -/
def btt_init (rawsize : Nat) (infos : List BttInfo) (maxlane : Nat) :
    InitOut × InitEff :=
  if rawsize < BTT_MIN_SIZE then (InitOut.einval, ⟨0, 0⟩)
  else
    let r := read_layout rawsize infos
    match r.1 with
    | RLRes.err => (InitOut.fail, ⟨1, r.2⟩)
    | RLRes.noLayout =>
      (InitOut.okp
        (if maxlane ≠ 0 ∧ BTT_DEFAULT_NFREE > maxlane then maxlane
         else BTT_DEFAULT_NFREE)
        BTT_DEFAULT_NFREE,
       ⟨1, r.2⟩)
    | RLRes.ok _ _ nfree =>
      (InitOut.okp
        (if maxlane ≠ 0 ∧ nfree > maxlane then maxlane else nfree) nfree,
       ⟨1, r.2⟩)

/-! ## Theorems for claims C6, C7, C10 -/

/-- Helper for C6: when every info block is valid and the arena walk of
read_layout ends in its ok exit, the accumulators it returns are the ones
the spec prescribes over the walked prefix of the arenas. -/
theorem read_layout_walk_ok (infos : List BttInfo) :
    ∀ (rawsize narena total smallest n t s : Nat),
      (∀ i ∈ infos, i.valid = true) →
      (read_layout_walk rawsize infos narena total smallest).1 =
        RLOut.ok n t s →
      n = narena + (specWalked rawsize infos).length
      ∧ t = total + ((specWalked rawsize infos).map BttInfo.external_nlba).sum
      ∧ s = ((specWalked rawsize infos).map BttInfo.nfree).foldl
              (fun a b => if b < a then b else a) smallest := by
  induction infos with
  | nil =>
    intro rawsize narena total smallest n t s hv h
    by_cases hr : rawsize < BTT_MIN_SIZE
    · simp [read_layout_walk, hr] at h
      simp [specWalked]
      omega
    · simp [read_layout_walk, hr] at h
  | cons i rest ih =>
    intro rawsize narena total smallest n t s hv h
    have hvi : i.valid = true := hv i (List.mem_cons_self i rest)
    have hvr : ∀ j ∈ rest, j.valid = true :=
      fun j hj => hv j (List.mem_cons_of_mem i hj)
    by_cases hr : rawsize < BTT_MIN_SIZE
    · simp [read_layout_walk, hr] at h
      simp [specWalked, hr]
      omega
    · by_cases hn : i.nextoff = 0
      · simp [read_layout_walk, hr, hvi, hn] at h
        simp [specWalked, hr, hn]
        omega
      · have hunf :
            (read_layout_walk rawsize (i :: rest) narena total smallest).1 =
              (read_layout_walk (sub64 rawsize i.nextoff) rest (narena + 1)
                (total + i.external_nlba)
                (if i.nfree < smallest then i.nfree else smallest)).1 := by
          simp [read_layout_walk, hr, hvi, hn]
        rw [hunf] at h
        rcases ih (sub64 rawsize i.nextoff) (narena + 1)
            (total + i.external_nlba)
            (if i.nfree < smallest then i.nfree else smallest) n t s hvr h with
          ⟨h1, h2, h3⟩
        refine ⟨?_, ?_, ?_⟩
        · simp only [specWalked, if_neg hr, if_neg hn, List.length_cons]
          omega
        · simp only [specWalked, if_neg hr, if_neg hn, List.map_cons,
            List.sum_cons]
          omega
        · simpa only [specWalked, if_neg hr, if_neg hn, List.map_cons,
            List.foldl_cons] using h3

/-- C6 (counterexample to the claim as stated): a single valid arena with an
info-block nfree of 300 gives a handle nfree of 256 = BTT_DEFAULT_NFREE,
not the minimum 300 over the walked arenas, because btt.c:970 and
btt.c:1012-1013 cap the handle nfree at the default it was seeded with. -/
theorem read_layout_nfree_capped :
    (read_layout BTT_MIN_SIZE [⟨true, 300, 7, 0⟩]).1 = RLRes.ok 1 7 256
    ∧ (256 : Nat) ≠ 300 := by
  refine ⟨?_, ?_⟩ <;> decide

/-- C6 (amended): after read_layout succeeds on a namespace whose every
walked arena has a valid info block, the handle nlba equals the sum of the
external_nlba values of the walked arenas, the handle nfree equals the
minimum of BTT_DEFAULT_NFREE and the info-block nfree values across the
walked arenas, and the walked arenas are exactly the prefix obtained by
following nextoff until nextoff = 0 or the remaining space drops below the
minimum arena size. -/
theorem read_layout_correct (rawsize : Nat) (infos : List BttInfo)
    (n t f : Nat) (hv : ∀ i ∈ infos, i.valid = true)
    (h : (read_layout rawsize infos).1 = RLRes.ok n t f) :
    n = (specWalked rawsize infos).length
    ∧ t = ((specWalked rawsize infos).map BttInfo.external_nlba).sum
    ∧ f = Nat.min BTT_DEFAULT_NFREE
        (((specWalked rawsize infos).map BttInfo.nfree).foldl Nat.min
          UINT32_MAX) := by
  have hfun :
      (fun a b => if b < a then b else a) = Nat.min := by
    funext a b
    simp only [Nat.min_def]
    split_ifs <;> omega
  simp only [read_layout] at h
  rcases hw : (read_layout_walk rawsize infos 0 0 UINT32_MAX).1 with
    _ | _ | ⟨n2, t2, s2⟩
  · rw [hw] at h
    simp at h
  · rw [hw] at h
    simp at h
  · rw [hw] at h
    simp at h
    obtain ⟨e1, e2, e3⟩ := h
    rcases read_layout_walk_ok infos rawsize 0 0 UINT32_MAX n2 t2 s2 hv hw with
      ⟨h1, h2, h3⟩
    rw [hfun] at h3
    refine ⟨by omega, by omega, ?_⟩
    rw [← h3]
    simp only [Nat.min_def]
    rcases Nat.lt_or_ge s2 BTT_DEFAULT_NFREE with hc | hc
    · rw [if_pos hc] at e3
      rw [if_neg (by omega)]
      omega
    · rw [if_neg (by omega)] at e3
      rw [if_pos (by omega)]
      omega

/-- Witness for C6 at a concrete input: one valid arena with nfree 100,
external_nlba 7 and nextoff 0 in a namespace of exactly the minimum size. -/
theorem read_layout_correct_witness :
    (1 : Nat) = (specWalked BTT_MIN_SIZE [⟨true, 100, 7, 0⟩]).length
    ∧ (7 : Nat) =
        ((specWalked BTT_MIN_SIZE [⟨true, 100, 7, 0⟩]).map
          BttInfo.external_nlba).sum
    ∧ (100 : Nat) = Nat.min BTT_DEFAULT_NFREE
        (((specWalked BTT_MIN_SIZE [⟨true, 100, 7, 0⟩]).map
          BttInfo.nfree).foldl Nat.min UINT32_MAX) :=
  read_layout_correct BTT_MIN_SIZE [⟨true, 100, 7, 0⟩] 1 7 100
    (by decide) (by decide)

/-- Helper for C7: the nlane computation of btt.c:1123-1127, rewritten as
the capped minimum it computes. -/
theorem nlane_cap (nfree maxlane : Nat) :
    (if maxlane ≠ 0 ∧ nfree > maxlane then maxlane else nfree) =
      if maxlane = 0 then nfree else Nat.min nfree maxlane := by
  by_cases hm : maxlane = 0
  · simp [hm]
  · simp only [Nat.min_def, if_neg hm]
    by_cases hc : nfree > maxlane
    · rw [if_pos ⟨hm, hc⟩, if_neg (by omega)]
    · rw [if_neg (fun hx => hc hx.2), if_pos (by omega)]

/-- C7 (counterexample to the claim as stated): with one valid arena of
nfree 4 and maxlane 0, btt_init succeeds with nlane 4 = nfree, not
min(nfree, maxlane) = 0, because a zero maxlane means no cap at
btt.c:1126. -/
theorem btt_init_maxlane_zero :
    (btt_init BTT_MIN_SIZE [⟨true, 4, 7, 0⟩] 0).1 = InitOut.okp 4 4
    ∧ Nat.min 4 0 ≠ 4 := by
  refine ⟨?_, ?_⟩ <;> decide

/-- C7 (amended): whenever btt_init succeeds, the lane count that btt_nlane
returns equals min(nfree, maxlane) when maxlane is nonzero, and equals
nfree itself when maxlane = 0 (a zero maxlane means no cap). -/
theorem btt_init_nlane_correct (rawsize maxlane nl nf : Nat)
    (infos : List BttInfo)
    (h : (btt_init rawsize infos maxlane).1 = InitOut.okp nl nf) :
    nl = if maxlane = 0 then nf else Nat.min nf maxlane := by
  by_cases hr : rawsize < BTT_MIN_SIZE
  · simp [btt_init, hr] at h
  · simp only [btt_init, if_neg hr] at h
    rcases hw : (read_layout rawsize infos).1 with _ | _ | ⟨n2, t2, s2⟩
    · rw [hw] at h
      simp at h
    · rw [hw] at h
      simp at h
      obtain ⟨e1, e2⟩ := h
      subst e1
      subst e2
      exact nlane_cap BTT_DEFAULT_NFREE maxlane
    · rw [hw] at h
      simp at h
      obtain ⟨e1, e2⟩ := h
      subst e1
      subst e2
      exact nlane_cap s2 maxlane

/-- Witness for C7 at a concrete input: one valid arena of nfree 4 and a
maxlane of 2 give nlane 2. -/
theorem btt_init_nlane_correct_witness :
    (2 : Nat) = if (2 : Nat) = 0 then 4 else Nat.min 4 2 :=
  btt_init_nlane_correct BTT_MIN_SIZE 2 2 4 [⟨true, 4, 7, 0⟩] (by decide)

/-- C10: for every rawsize strictly smaller than BTT_MIN_SIZE, btt_init
fails with errno EINVAL before allocating a handle and before invoking any
namespace callback. -/
theorem btt_init_small_rawsize (rawsize maxlane : Nat)
    (infos : List BttInfo) (h : rawsize < BTT_MIN_SIZE) :
    btt_init rawsize infos maxlane = (InitOut.einval, ⟨0, 0⟩) := by
  simp [btt_init, h]

/-- Witness for C10 at a concrete input: rawsize 0. -/
theorem btt_init_small_rawsize_witness :
    (0 : Nat) < BTT_MIN_SIZE
    ∧ btt_init 0 [] 0 = (InitOut.einval, ⟨0, 0⟩) :=
  ⟨by decide, btt_init_small_rawsize 0 0 [] (by decide)⟩

/-! ## Set-flag path (map_entry_setf, btt.c:1433-1528) -/

/-- Error mask of the arena info flags (BTTINFO_FLAG_ERROR_MASK). Modelled
from the spec: the constant lives in btt_layout.h, which is not under src;
the spec only says the info flags include an error bit, so bit 0 is used
here. The claims only involve states whose flags are clear, so the value
does not matter to them. -/
def BTTINFO_FLAG_ERROR_MASK : Nat := 1

/-- Run-time arena state used by the set-flag path: info flags, number of
external LBAs in the arena, and the arena map as a function from pre-map
LBA to the 32-bit entry. -/
structure ArenaSt where
  flags : Nat
  external_nlba : Nat
  map : Nat → Nat

/-- Handle state used by the set-flag path: the laidout flag, the nlba and
nfree handle fields, and the arenas. -/
structure SetfSt where
  laidout : Bool
  nlba : Nat
  nfree : Nat
  arenas : List ArenaSt

/-- Events of the set-flag path: the one-shot layout mutex and layout
write, the per-bucket map lock, and map-entry reads and writes. The
flogWrite and dataWrite events never occur in this path; they are part of
the vocabulary so that the proved traces visibly exclude them. -/
inductive SEv where
  | layoutLock
  | layoutWrite
  | layoutUnlock
  | mapLockAcq (bucket : Nat)
  | mapRead (arena idx : Nat)
  | mapWrite (arena idx val : Nat)
  | mapLockRel (bucket : Nat)
  | flogWrite (lane : Nat)
  | dataWrite (block : Nat)
deriving DecidableEq

/-- Result of the set-flag path. -/
inductive SRes where
  | ok
  | einval
  | eio
  | err
deriving DecidableEq

/-- lba_to_arena_lba (btt.c:1046-1068): find the arena whose range holds
the external LBA, and the pre-map LBA within that arena, by subtracting
the external_nlba of each preceding arena. none corresponds to the ASSERT
of btt.c:1061 (the caller range-checked the LBA). -/
def lba_to_arena_lba (arenas : List ArenaSt) (lba : Nat) :
    Option (Nat × Nat) :=
  match arenas with
  | [] => none
  | a :: rest =>
    if lba < a.external_nlba then some (0, lba)
    else (lba_to_arena_lba rest (lba - a.external_nlba)).map
           fun p => (p.1 + 1, p.2)

/-- Arena as write_layout creates it for a fresh namespace: zero info
flags (btt.c:896) and the identity map with the ZERO flag set on every
entry (btt.c:846). The geometry computation of write_layout is not needed
by the claims and is elided; the external_nlba value is a parameter. -/
def freshArena (nlbaExt : Nat) : ArenaSt :=
  { flags := 0, external_nlba := nlbaExt,
    map := fun i => i ||| BTT_MAP_ENTRY_ZERO }

/-- Rewrite one map entry of one arena of the handle. -/
def setMap : List ArenaSt → Nat → Nat → Nat → List ArenaSt
  | [], _, _, _ => []
  | a :: rest, 0, idx, v =>
    { a with map := fun j => if j = idx then v else a.map j } :: rest
  | a :: rest, ai + 1, idx, v => a :: setMap rest ai idx v

/-- Map entry of arena ai at index idx, when that arena exists. -/
def mapAt (st : SetfSt) (ai idx : Nat) : Option Nat :=
  (st.arenas.get? ai).map fun a => a.map idx

/-- Common tail of map_entry_setf (btt.c:1464-1501) once the layout
exists: locate the arena, fail with EIO when its info flags carry the
error mask, then read the entry under the map lock (bucket
premap mod nfree), release the lock without writing when setting ZERO on
an entry that already has ZERO, otherwise write entry OR setf and unlock.
rok and wok say whether the nsread of map_lock and the nswrite of
map_unlock succeed; ev0 is the trace accumulated by the caller; the none
arms correspond to the ASSERT of btt.c:1061. -/
def map_entry_setf_core (st : SetfSt) (lba setf : Nat) (rok wok : Bool)
    (ev0 : List SEv) : SRes × SetfSt × List SEv :=
  match lba_to_arena_lba st.arenas lba with
  | none => (SRes.err, st, ev0)
  | some (ai, premap) =>
    match st.arenas.get? ai with
    | none => (SRes.err, st, ev0)
    | some a =>
      if a.flags &&& BTTINFO_FLAG_ERROR_MASK ≠ 0 then (SRes.eio, st, ev0)
      else
        let bucket := premap % st.nfree
        if rok = false then
          (SRes.err, st,
           ev0 ++ [SEv.mapLockAcq bucket, SEv.mapLockRel bucket])
        else
          let old := a.map premap
          if setf = BTT_MAP_ENTRY_ZERO ∧ old &&& BTT_MAP_ENTRY_ZERO ≠ 0 then
            (SRes.ok, st,
             ev0 ++ [SEv.mapLockAcq bucket, SEv.mapRead ai premap,
                     SEv.mapLockRel bucket])
          else
            let newe := old ||| setf
            if wok = false then
              (SRes.err, st,
               ev0 ++ [SEv.mapLockAcq bucket, SEv.mapRead ai premap,
                       SEv.mapWrite ai premap newe, SEv.mapLockRel bucket])
            else
              (SRes.ok,
               { st with arenas := setMap st.arenas ai premap newe },
               ev0 ++ [SEv.mapLockAcq bucket, SEv.mapRead ai premap,
                       SEv.mapWrite ai premap newe, SEv.mapLockRel bucket])

/-- map_entry_setf (btt.c:1433-1502): the range check, the not-laid-out
handling (setting ZERO is then a no-op; any other flag first writes the
layout under the layout mutex), then the common tail. layoutok says
whether write_layout succeeds and freshNlbas gives the per-arena
external_nlba geometry the written layout would have. -/
def map_entry_setf (st : SetfSt) (lba setf : Nat) (layoutok : Bool)
    (freshNlbas : List Nat) (rok wok : Bool) : SRes × SetfSt × List SEv :=
  if st.nlba ≤ lba then (SRes.einval, st, [])
  else if st.laidout then map_entry_setf_core st lba setf rok wok []
  else if setf = BTT_MAP_ENTRY_ZERO then (SRes.ok, st, [])
  else if layoutok then
    map_entry_setf_core
      { st with laidout := true, arenas := freshNlbas.map freshArena }
      lba setf rok wok [SEv.layoutLock, SEv.layoutWrite, SEv.layoutUnlock]
  else (SRes.err, st, [SEv.layoutLock, SEv.layoutUnlock])

/-- btt_set_zero (btt.c:1509-1515). -/
def btt_set_zero (st : SetfSt) (lba : Nat) (layoutok : Bool)
    (freshNlbas : List Nat) (rok wok : Bool) : SRes × SetfSt × List SEv :=
  map_entry_setf st lba BTT_MAP_ENTRY_ZERO layoutok freshNlbas rok wok

/-- btt_set_error (btt.c:1522-1528). -/
def btt_set_error (st : SetfSt) (lba : Nat) (layoutok : Bool)
    (freshNlbas : List Nat) (rok wok : Bool) : SRes × SetfSt × List SEv :=
  map_entry_setf st lba BTT_MAP_ENTRY_ERROR layoutok freshNlbas rok wok

/-! ## Theorems for claims C8 and C9 -/

/-- Helper: a successful lba_to_arena_lba names an arena of the list and a
pre-map LBA inside its range. -/
theorem lba_to_arena_lba_get (arenas : List ArenaSt) :
    ∀ (lba ai premap : Nat),
      lba_to_arena_lba arenas lba = some (ai, premap) →
      ∃ a, arenas.get? ai = some a ∧ premap < a.external_nlba := by
  induction arenas with
  | nil =>
    intro lba ai premap h
    simp [lba_to_arena_lba] at h
  | cons a rest ih =>
    intro lba ai premap h
    by_cases hl : lba < a.external_nlba
    · simp [lba_to_arena_lba, hl] at h
      obtain ⟨h1, h2⟩ := h
      subst h1
      subst h2
      exact ⟨a, rfl, hl⟩
    · simp only [lba_to_arena_lba, if_neg hl] at h
      cases hrec : lba_to_arena_lba rest (lba - a.external_nlba) with
      | none =>
        rw [hrec] at h
        simp at h
      | some p =>
        rw [hrec] at h
        simp at h
        obtain ⟨h1, h2⟩ := h
        subst h1
        subst h2
        obtain ⟨a0, hget, hlt⟩ := ih (lba - a.external_nlba) p.1 p.2 hrec
        exact ⟨a0, by simpa using hget, hlt⟩

/-- Helper: rewriting one map entry only changes that arena slot, which
afterwards holds the pointwise-updated map. -/
theorem setMap_get (arenas : List ArenaSt) :
    ∀ (ai idx v : Nat) (a : ArenaSt),
      arenas.get? ai = some a →
      (setMap arenas ai idx v).get? ai =
        some { a with map := fun j => if j = idx then v else a.map j } := by
  induction arenas with
  | nil =>
    intro ai idx v a h
    simp at h
  | cons b rest ih =>
    intro ai idx v a h
    cases ai with
    | zero =>
      simp at h
      subst h
      simp [setMap]
    | succ n =>
      simp only [setMap, List.get?_cons_succ] at h ⊢
      exact ih n idx v a h

/-- Helper: OR-ing a power of two into a value leaves every other bit
position unchanged. -/
theorem lor_pow_and_pow (x a b : Nat) (h : a ≠ b) :
    (x ||| 2 ^ a) &&& 2 ^ b = x &&& 2 ^ b := by
  apply Nat.eq_of_testBit_eq
  intro i
  simp only [Nat.testBit_and, Nat.testBit_or]
  by_cases hi : i = b
  · rw [Nat.testBit_two_pow_of_ne (show a ≠ i by omega)]
    simp
  · rw [Nat.testBit_two_pow_of_ne (show b ≠ i by omega)]
    simp

/-- Helper: OR-ing a power of two into a value leaves all the bits below
it unchanged. -/
theorem lor_pow_and_mask (x a b : Nat) (h : b ≤ a) :
    (x ||| 2 ^ a) &&& (2 ^ b - 1) = x &&& (2 ^ b - 1) := by
  apply Nat.eq_of_testBit_eq
  intro i
  simp only [Nat.testBit_and, Nat.testBit_or]
  by_cases hi : i < b
  · rw [Nat.testBit_two_pow_of_ne (show a ≠ i by omega)]
    simp
  · have h2 : Nat.testBit (2 ^ b - 1) i = false := by
      rw [Nat.testBit_two_pow_sub_one]
      simp
      omega
    rw [h2]
    simp

/-- Helper for C8 and C9: behavior of the common tail of map_entry_setf on
an addressable LBA of an arena with clear error flags, when both namespace
accesses succeed: setting ZERO on an entry that already has ZERO releases
the lock without writing and succeeds with the state unchanged; otherwise
the entry becomes old OR setf, and the trace is lock, read, write, unlock,
with no flog or data-block access in either case. -/
theorem map_entry_setf_core_ok (st : SetfSt) (lba setf ai premap : Nat)
    (a : ArenaSt) (ev0 : List SEv)
    (hfind : lba_to_arena_lba st.arenas lba = some (ai, premap))
    (hget : st.arenas.get? ai = some a)
    (hflags : a.flags &&& BTTINFO_FLAG_ERROR_MASK = 0) :
    map_entry_setf_core st lba setf true true ev0 =
      if setf = BTT_MAP_ENTRY_ZERO
          ∧ a.map premap &&& BTT_MAP_ENTRY_ZERO ≠ 0 then
        (SRes.ok, st,
         ev0 ++ [SEv.mapLockAcq (premap % st.nfree), SEv.mapRead ai premap,
                 SEv.mapLockRel (premap % st.nfree)])
      else
        (SRes.ok,
         { st with
             arenas := setMap st.arenas ai premap (a.map premap ||| setf) },
         ev0 ++ [SEv.mapLockAcq (premap % st.nfree), SEv.mapRead ai premap,
                 SEv.mapWrite ai premap (a.map premap ||| setf),
                 SEv.mapLockRel (premap % st.nfree)]) := by
  unfold map_entry_setf_core
  simp only [hfind]
  simp only [hget]
  simp only [hflags]
  simp

/-- C8: on a handle that is not yet laid out, with an in-range LBA,
btt_set_zero succeeds while leaving the state untouched and performing no
namespace access, while btt_set_error first writes the layout under the
layout mutex and then sets the ERROR flag on the map entry of the freshly
written identity map, under the map lock. -/
theorem setf_not_laidout (st : SetfSt) (lba : Nat) (freshNlbas : List Nat)
    (ai premap : Nat)
    (hlay : st.laidout = false) (hlba : lba < st.nlba)
    (hfind : lba_to_arena_lba (freshNlbas.map freshArena) lba =
      some (ai, premap)) :
    btt_set_zero st lba true freshNlbas true true = (SRes.ok, st, [])
    ∧ (btt_set_error st lba true freshNlbas true true).1 = SRes.ok
    ∧ (btt_set_error st lba true freshNlbas true true).2.1.laidout = true
    ∧ (btt_set_error st lba true freshNlbas true true).2.2 =
        [SEv.layoutLock, SEv.layoutWrite, SEv.layoutUnlock,
         SEv.mapLockAcq (premap % st.nfree), SEv.mapRead ai premap,
         SEv.mapWrite ai premap
           ((premap ||| BTT_MAP_ENTRY_ZERO) ||| BTT_MAP_ENTRY_ERROR),
         SEv.mapLockRel (premap % st.nfree)]
    ∧ mapAt (btt_set_error st lba true freshNlbas true true).2.1 ai premap =
        some ((premap ||| BTT_MAP_ENTRY_ZERO) ||| BTT_MAP_ENTRY_ERROR) := by
  have hnle : ¬(st.nlba ≤ lba) := by omega
  have hne : ¬(BTT_MAP_ENTRY_ERROR = BTT_MAP_ENTRY_ZERO) := by decide
  have hzero :
      btt_set_zero st lba true freshNlbas true true = (SRes.ok, st, []) := by
    simp [btt_set_zero, map_entry_setf, hnle, hlay]
  obtain ⟨a, hget, hlt⟩ :=
    lba_to_arena_lba_get (freshNlbas.map freshArena) lba ai premap hfind
  obtain ⟨n0, hn0, ha⟩ :
      ∃ n0, freshNlbas.get? ai = some n0 ∧ a = freshArena n0 := by
    rw [List.get?_map] at hget
    cases hh : freshNlbas.get? ai with
    | none =>
      rw [hh] at hget
      simp at hget
    | some n0 =>
      rw [hh] at hget
      simp at hget
      exact ⟨n0, rfl, hget.symm⟩
  subst ha
  have hflags : (freshArena n0).flags &&& BTTINFO_FLAG_ERROR_MASK = 0 := by
    simp [freshArena, Nat.zero_and]
  have herr : btt_set_error st lba true freshNlbas true true =
      map_entry_setf_core
        { st with laidout := true, arenas := freshNlbas.map freshArena }
        lba BTT_MAP_ENTRY_ERROR true true
        [SEv.layoutLock, SEv.layoutWrite, SEv.layoutUnlock] := by
    simp [btt_set_error, map_entry_setf, hnle, hlay, hne]
  have hcore := map_entry_setf_core_ok
    { st with laidout := true, arenas := freshNlbas.map freshArena }
    lba BTT_MAP_ENTRY_ERROR ai premap (freshArena n0)
    [SEv.layoutLock, SEv.layoutWrite, SEv.layoutUnlock]
    hfind hget hflags
  rw [if_neg (fun hx => hne hx.1)] at hcore
  have hsm := setMap_get (freshNlbas.map freshArena) ai premap
    ((freshArena n0).map premap ||| BTT_MAP_ENTRY_ERROR) (freshArena n0) hget
  refine ⟨hzero, ?_, ?_, ?_, ?_⟩
  · rw [herr, hcore]
  · rw [herr, hcore]
  · rw [herr, hcore]
    simp [freshArena]
  · rw [herr, hcore]
    simp only [mapAt]
    simp only [hsm]
    simp [freshArena]

/-- C9: on a laid-out handle with an addressable LBA in an arena whose
error flags are clear, a successful btt_set_zero or btt_set_error rewrites
the map entry to the old entry OR the single requested flag, leaving the
post-map LBA (low 30 bits) and the other flag bit unchanged, under the map
lock, with no flog entry and no data block written; setting ZERO on an
entry that already has ZERO does not write the map entry at all: the lock
is released and success is returned with the state unchanged. -/
theorem setf_laidout (st : SetfSt) (lba setf ai premap : Nat) (a : ArenaSt)
    (layoutok : Bool) (freshNlbas : List Nat)
    (hlay : st.laidout = true) (hlba : lba < st.nlba)
    (hfind : lba_to_arena_lba st.arenas lba = some (ai, premap))
    (hget : st.arenas.get? ai = some a)
    (hflags : a.flags &&& BTTINFO_FLAG_ERROR_MASK = 0)
    (hsetf : setf = BTT_MAP_ENTRY_ZERO ∨ setf = BTT_MAP_ENTRY_ERROR) :
    map_entry_setf st lba setf layoutok freshNlbas true true =
      (if setf = BTT_MAP_ENTRY_ZERO
          ∧ a.map premap &&& BTT_MAP_ENTRY_ZERO ≠ 0 then
        (SRes.ok, st,
         [SEv.mapLockAcq (premap % st.nfree), SEv.mapRead ai premap,
          SEv.mapLockRel (premap % st.nfree)])
      else
        (SRes.ok,
         { st with
             arenas := setMap st.arenas ai premap (a.map premap ||| setf) },
         [SEv.mapLockAcq (premap % st.nfree), SEv.mapRead ai premap,
          SEv.mapWrite ai premap (a.map premap ||| setf),
          SEv.mapLockRel (premap % st.nfree)]))
    ∧ (a.map premap ||| setf) &&& BTT_MAP_ENTRY_LBA_MASK
        = a.map premap &&& BTT_MAP_ENTRY_LBA_MASK
    ∧ (a.map premap ||| setf) &&&
        (if setf = BTT_MAP_ENTRY_ZERO then BTT_MAP_ENTRY_ERROR
         else BTT_MAP_ENTRY_ZERO)
      = a.map premap &&&
        (if setf = BTT_MAP_ENTRY_ZERO then BTT_MAP_ENTRY_ERROR
         else BTT_MAP_ENTRY_ZERO) := by
  refine ⟨?_, ?_, ?_⟩
  · have hnle : ¬(st.nlba ≤ lba) := by omega
    have h1 : map_entry_setf st lba setf layoutok freshNlbas true true =
        map_entry_setf_core st lba setf true true [] := by
      simp [map_entry_setf, hnle, hlay]
    rw [h1,
      map_entry_setf_core_ok st lba setf ai premap a [] hfind hget hflags]
    simp only [List.nil_append]
  · rcases hsetf with hs | hs <;> subst hs
    · exact lor_pow_and_mask (a.map premap) 30 30 (by omega)
    · exact lor_pow_and_mask (a.map premap) 31 30 (by omega)
  · rcases hsetf with hs | hs <;> subst hs
    · rw [if_pos rfl]
      exact lor_pow_and_pow (a.map premap) 30 31 (by omega)
    · rw [if_neg (by decide)]
      exact lor_pow_and_pow (a.map premap) 31 30 (by omega)

/-- Handle state for the C8 witness: not laid out, one external LBA. -/
def stV : SetfSt := ⟨false, 1, 1, []⟩

/-- Witness for C8 at a concrete input: setting flags on LBA 0 of a
not-yet-laid-out handle whose fresh layout would have one arena of one
LBA. -/
theorem setf_not_laidout_witness :
    btt_set_zero stV 0 true [1] true true = (SRes.ok, stV, [])
    ∧ (btt_set_error stV 0 true [1] true true).1 = SRes.ok
    ∧ (btt_set_error stV 0 true [1] true true).2.1.laidout = true
    ∧ (btt_set_error stV 0 true [1] true true).2.2 =
        [SEv.layoutLock, SEv.layoutWrite, SEv.layoutUnlock,
         SEv.mapLockAcq (0 % stV.nfree), SEv.mapRead 0 0,
         SEv.mapWrite 0 0
           ((0 ||| BTT_MAP_ENTRY_ZERO) ||| BTT_MAP_ENTRY_ERROR),
         SEv.mapLockRel (0 % stV.nfree)]
    ∧ mapAt (btt_set_error stV 0 true [1] true true).2.1 0 0 =
        some ((0 ||| BTT_MAP_ENTRY_ZERO) ||| BTT_MAP_ENTRY_ERROR) :=
  setf_not_laidout stV 0 [1] 0 0 rfl (by decide) (by decide)

/-- Arena for the C9 witness: flags clear, two external LBAs, the
identity-ZERO map of a fresh layout. -/
def arenaW : ArenaSt := ⟨0, 2, fun i => i ||| BTT_MAP_ENTRY_ZERO⟩

/-- Handle state for the C9 witness. -/
def stW : SetfSt := ⟨true, 2, 1, [arenaW]⟩

/-- Witness for C9 at a concrete input: setting ERROR on LBA 1 of a
laid-out one-arena handle. -/
theorem setf_laidout_witness :
    map_entry_setf stW 1 BTT_MAP_ENTRY_ERROR true [] true true =
      (if BTT_MAP_ENTRY_ERROR = BTT_MAP_ENTRY_ZERO
          ∧ arenaW.map 1 &&& BTT_MAP_ENTRY_ZERO ≠ 0 then
        (SRes.ok, stW,
         [SEv.mapLockAcq (1 % stW.nfree), SEv.mapRead 0 1,
          SEv.mapLockRel (1 % stW.nfree)])
      else
        (SRes.ok,
         { stW with
             arenas := setMap stW.arenas 0 1
               (arenaW.map 1 ||| BTT_MAP_ENTRY_ERROR) },
         [SEv.mapLockAcq (1 % stW.nfree), SEv.mapRead 0 1,
          SEv.mapWrite 0 1 (arenaW.map 1 ||| BTT_MAP_ENTRY_ERROR),
          SEv.mapLockRel (1 % stW.nfree)]))
    ∧ (arenaW.map 1 ||| BTT_MAP_ENTRY_ERROR) &&& BTT_MAP_ENTRY_LBA_MASK
        = arenaW.map 1 &&& BTT_MAP_ENTRY_LBA_MASK
    ∧ (arenaW.map 1 ||| BTT_MAP_ENTRY_ERROR) &&&
        (if BTT_MAP_ENTRY_ERROR = BTT_MAP_ENTRY_ZERO then BTT_MAP_ENTRY_ERROR
         else BTT_MAP_ENTRY_ZERO)
      = arenaW.map 1 &&&
        (if BTT_MAP_ENTRY_ERROR = BTT_MAP_ENTRY_ZERO then BTT_MAP_ENTRY_ERROR
         else BTT_MAP_ENTRY_ZERO) :=
  setf_laidout stW 1 BTT_MAP_ENTRY_ERROR 0 1 arenaW true [] rfl (by decide)
    (by decide) rfl (by decide) (Or.inr rfl)

end Btt
